import Mathlib

/-!
Verification of the SAPS-FirearmAPI core (src/app.js) against its
natural-language specification.

The file shallowly embeds the parts of `src/app.js` that the claims are
about:

* the request body and the validator `validateFirearmSearch`
  (src/app.js lines 331-387);
* the form-fill branch of `performScraping` (lines 136-146);
* the cache key `JSON.stringify(req.body)` (line 403), together with a
  faithful model of JSON string escaping;
* the result cache `new NodeCache({ stdTTL: 3600 })` (line 321), with the
  node-cache TTL semantics;
* the browser pool options (lines 99-112) and the generic-pool acquire
  behaviour at capacity;
* the resource accounting of `performScraping` (lines 115-162): which exit
  paths release or destroy the acquired browser;
* the request-interception filter (lines 126-132);
* the POST /api/firearms/search handler (lines 390-432).

Request bodies are ordered association lists of string fields, matching a
parsed JSON object (insertion order preserved, keys unique).
-/

/-- A parsed JSON request body: the fields in their textual order. -/
abbrev Body : Type := List (String × String)

/-- Field access `req.body.<k>`: the first binding of `k`, if any. -/
def bodyGet (b : Body) (k : String) : Option String :=
  match b with
  | [] => none
  | kv :: rest => if kv.1 = k then some kv.2 else bodyGet rest k

/-- Field access defaulted to the empty string (only used under truthiness). -/
def bodyGetD (b : Body) (k : String) : String :=
  (bodyGet b k).getD ""

/-- JavaScript truthiness of an optional string: present and non-empty.
(`undefined` and `""` are falsy; every other string is truthy.) -/
def truthy (o : Option String) : Bool :=
  match o with
  | none => false
  | some s => s ≠ ""

/-- Character class of the validator regexes `[A-Za-z0-9]`. -/
def isAlnumChar (c : Char) : Bool :=
  (decide ('A' ≤ c) && decide (c ≤ 'Z')) ||
  (decide ('a' ≤ c) && decide (c ≤ 'z')) ||
  (decide ('0' ≤ c) && decide (c ≤ '9'))

/-- The regex `^[A-Za-z0-9]{n,}$` from src/app.js lines 348, 360, 366, 378. -/
def matchesAlnumMin (n : Nat) (s : String) : Bool :=
  decide (n ≤ s.length) && s.data.all isAlnumChar

/-- The regex `^\d{13}$` from src/app.js lines 354 and 372. -/
def matchesDigits13 (s : String) : Bool :=
  (s.length == 13) && s.data.all Char.isDigit

/-- One `if (field) { if (!re.test(field)) throw }` block of the validator:
an absent or empty (falsy) field is not format-checked. -/
def presentFieldOk (o : Option String) (chk : String → Bool) : Bool :=
  match o with
  | none => true
  | some s => if s = "" then true else chk s

/-- `!!(fref && frid)` of src/app.js line 337 (and the analogous lines 338-339):
whether a pair of fields is complete (both truthy). -/
def pairComplete (b : Body) (k1 k2 : String) : Bool :=
  truthy (bodyGet b k1) && truthy (bodyGet b k2)

/-- `pairs.filter(Boolean).length` of src/app.js line 342. -/
def pairCount (b : Body) : Nat :=
  (if pairComplete b "fref" "frid" then 1 else 0) +
  (if pairComplete b "fserial" "fsref" then 1 else 0) +
  (if pairComplete b "fid" "fiserial" then 1 else 0)

/-- The validator `validateFirearmSearch` of src/app.js lines 331-384:
exactly one complete pair, and each truthy field among the six passes its
format regex.  `true` means the custom validator threw no error. -/
def validateFirearmSearch (b : Body) : Bool :=
  (pairCount b == 1) &&
  presentFieldOk (bodyGet b "fref") (matchesAlnumMin 6) &&
  presentFieldOk (bodyGet b "frid") matchesDigits13 &&
  presentFieldOk (bodyGet b "fserial") (matchesAlnumMin 4) &&
  presentFieldOk (bodyGet b "fsref") (matchesAlnumMin 6) &&
  presentFieldOk (bodyGet b "fid") matchesDigits13 &&
  presentFieldOk (bodyGet b "fiserial") (matchesAlnumMin 4)

/-- The spec's Query type (§3): a tagged union of exactly three variants. -/
inductive Query : Type where
  | byReferenceAndId (reference idNumber : String)
  | bySerialAndReference (serial reference : String)
  | byIdAndSerial (idNumber serial : String)
  deriving DecidableEq

/-- The Query denoted by a request body: the unique complete field pair,
or `none` when the body does not have exactly one complete pair. -/
def queryOfBody (b : Body) : Option Query :=
  let p1 := pairComplete b "fref" "frid"
  let p2 := pairComplete b "fserial" "fsref"
  let p3 := pairComplete b "fid" "fiserial"
  if p1 && !p2 && !p3 then
    some (.byReferenceAndId (bodyGetD b "fref") (bodyGetD b "frid"))
  else if !p1 && p2 && !p3 then
    some (.bySerialAndReference (bodyGetD b "fserial") (bodyGetD b "fsref"))
  else if !p1 && !p2 && p3 then
    some (.byIdAndSerial (bodyGetD b "fid") (bodyGetD b "fiserial"))
  else
    none

/-- The fixed variant→field table exactly as the spec states it
(§4.2 step 4 and claim C7): `ByReferenceAndId → #fref/#frid`,
`BySerialAndReference → #fserial/#fsref`, `ByIdAndSerial → #fid/#fiserial`.
This definition follows the spec's words; `fillFields` below follows the
code, and C7 compares the two. -/
def specFieldTable (q : Query) : List (String × String) :=
  match q with
  | .byReferenceAndId r i => [("#fref", r), ("#frid", i)]
  | .bySerialAndReference s r => [("#fserial", s), ("#fsref", r)]
  | .byIdAndSerial i s => [("#fid", i), ("#fiserial", s)]

/-- The form-fill `if/else if` chain of `performScraping`
(src/app.js lines 136-146): the list of `(selector, typed value)` pairs
passed to `page.type`, in order. -/
def fillFields (b : Body) : List (String × String) :=
  if pairComplete b "fref" "frid" then
    [("#fref", bodyGetD b "fref"), ("#frid", bodyGetD b "frid")]
  else if pairComplete b "fserial" "fsref" then
    [("#fserial", bodyGetD b "fserial"), ("#fsref", bodyGetD b "fsref")]
  else if pairComplete b "fid" "fiserial" then
    [("#fid", bodyGetD b "fid"), ("#fiserial", bodyGetD b "fiserial")]
  else
    []

/-- The `"` character, written via its code point. -/
def quoteChar : Char := Char.ofNat 34

/-- The `\` character, written via its code point. -/
def backslashChar : Char := Char.ofNat 92

/-- The opening curly bracket character. -/
def lbraceChar : Char := Char.ofNat 123

/-- The closing curly bracket character. -/
def rbraceChar : Char := Char.ofNat 125

/-- The `:` character. -/
def colonChar : Char := ':'

/-- The `,` character. -/
def commaChar : Char := ','

/-- JSON string escaping of one character, as `JSON.stringify` performs it:
quote and backslash get a backslash escape, the five short control escapes
are used where they exist, the remaining control characters become
`\u00XX`, and every other character is emitted unchanged. -/
def jsonEscapeChar (c : Char) : List Char :=
  if c = quoteChar then [backslashChar, quoteChar]
  else if c = backslashChar then [backslashChar, backslashChar]
  else if c = Char.ofNat 8 then [backslashChar, 'b']
  else if c = Char.ofNat 9 then [backslashChar, 't']
  else if c = Char.ofNat 10 then [backslashChar, 'n']
  else if c = Char.ofNat 12 then [backslashChar, 'f']
  else if c = Char.ofNat 13 then [backslashChar, 'r']
  else if c.toNat < 32 then
    [backslashChar, 'u', '0', '0', Nat.digitChar (c.toNat / 16), Nat.digitChar (c.toNat % 16)]
  else [c]

/-- JSON string escaping of a character list. -/
def jsonEscapeList (l : List Char) : List Char :=
  match l with
  | [] => []
  | c :: cs => jsonEscapeChar c ++ jsonEscapeList cs

/-- One `"key":"value"` member of the serialized object. -/
def jsonEntry (kv : String × String) : List Char :=
  quoteChar ::
    (jsonEscapeList kv.1.data ++
      quoteChar :: colonChar :: quoteChar ::
        (jsonEscapeList kv.2.data ++ [quoteChar]))

/-- The comma-separated members of the serialized object. -/
def jsonEntries (b : Body) : List Char :=
  match b with
  | [] => []
  | kv :: [] => jsonEntry kv
  | kv :: kv2 :: rest => jsonEntry kv ++ commaChar :: jsonEntries (kv2 :: rest)

/-- `JSON.stringify(req.body)` on an object whose values are strings,
in the object's field order (src/app.js line 403). -/
def cacheKey (b : Body) : String :=
  String.mk (lbraceChar :: (jsonEntries b ++ [rbraceChar]))

/-- A character that JSON escaping leaves unchanged: not a quote, not a
backslash, not a control character. -/
def plainChar (c : Char) : Bool :=
  (c != quoteChar) && (c != backslashChar) && decide (32 ≤ c.toNat)

/-- A string all of whose characters are plain. -/
def plainString (s : String) : Bool :=
  s.data.all plainChar

/-- A body all of whose keys and values are plain strings. -/
def plainBody (b : Body) : Bool :=
  b.all (fun kv => plainString kv.1 && plainString kv.2)

/-- A Query whose two field values are plain strings. -/
def plainQuery (q : Query) : Bool :=
  match q with
  | .byReferenceAndId r i => plainString r && plainString i
  | .bySerialAndReference s r => plainString s && plainString r
  | .byIdAndSerial i s => plainString i && plainString s

/-- The body a Query denotes when presented in the canonical field order of
its variant (the order of the spec's field table, without the `#`). -/
def canonicalBody (q : Query) : Body :=
  match q with
  | .byReferenceAndId r i => [("fref", r), ("frid", i)]
  | .bySerialAndReference s r => [("fserial", s), ("fsref", r)]
  | .byIdAndSerial i s => [("fid", i), ("fiserial", s)]

/-- The cache TTL in milliseconds: `stdTTL: 3600` seconds
(src/app.js line 321). -/
def cacheTTLMillis : Nat := 3600 * 1000

/-- The in-memory cache: a list of (key, value, expiry time in ms).
node-cache stores, for each key, the value together with the absolute
expiry instant `now + stdTTL * 1000`. -/
abbrev CacheState : Type := List (String × String × Nat)

/-- `cache.get(key)` at time `now` (ms): node-cache returns the stored
value unless the entry's expiry instant lies strictly in the past. -/
def cacheGet (c : CacheState) (k : String) (now : Nat) : Option String :=
  match c with
  | [] => none
  | e :: rest =>
    if e.1 = k then
      if e.2.2 < now then none else some e.2.1
    else cacheGet rest k now

/-- `cache.set(key, v)` at time `now` (ms): stores `v` under `key` with
expiry `now + stdTTL * 1000`, overwriting any previous entry. -/
def cacheSet (c : CacheState) (k : String) (v : String) (now : Nat) : CacheState :=
  (k, v, now + cacheTTLMillis) :: c.filter (fun e => e.1 ≠ k)

/-- The options passed to `genericPool.createPool` in src/app.js
lines 109-112: only `min: 2` and `max: 10` are set.  In particular no
`acquireTimeoutMillis` (the generic-pool option that bounds how long an
`acquire` call waits) is configured, which the model records as `none`. -/
structure PoolOptions where
  minInstances : Nat
  maxInstances : Nat
  acquireTimeoutMillis : Option Nat
  deriving DecidableEq

/-- The browser pool configuration of src/app.js lines 99-112. -/
def browserPoolOptions : PoolOptions :=
  { minInstances := 2, maxInstances := 10, acquireTimeoutMillis := none }

/-- Possible outcomes of an `acquire` call made while the pool is at its
maximum: the call is a promise that resolves when a resource is freed,
rejects with a timeout error, or stays pending forever. -/
inductive AcquireOutcome : Type where
  | acquired (waitedMillis : Nat)
  | poolExhausted (waitedMillis : Nat)
  | pending
  deriving DecidableEq

/-- generic-pool's acquire behaviour at maximum capacity, as a function of
the configured options and of when (if ever) a resource is freed by a
release or destroy: the wait is bounded only when `acquireTimeoutMillis`
is configured; with no timeout configured the promise stays pending until
a resource is freed, and forever if none ever is. -/
def acquireAtCapacity (opts : PoolOptions) (freedAtMillis : Option Nat) : AcquireOutcome :=
  match freedAtMillis, opts.acquireTimeoutMillis with
  | some t, some timeoutMs =>
    if t ≤ timeoutMs then .acquired t else .poolExhausted timeoutMs
  | some t, none => .acquired t
  | none, some timeoutMs => .poolExhausted timeoutMs
  | none, none => .pending

/-- Errors with which `browserPool.acquire()` can reject: generic-pool
rejects with its timeout error when a configured wait bound elapses, and
with the factory's error when creating a browser fails. -/
inductive PoolError : Type where
  | poolExhausted
  | createFailed (msg : String)
  deriving DecidableEq

/-- The error `performScraping` terminates with: an acquire rejection
propagated unchanged (thrown at line 116, before the try), a
`browser.newPage()` rejection propagated unchanged (thrown at line 117,
also before the try), or the single wrapped error
`new Error('Failed to fetch data')` rethrown by the catch block at
line 158 for any failure inside the try block. -/
inductive ScrapeError : Type where
  | fromPool (e : PoolError)
  | fromNewPage (msg : String)
  | failedToFetch
  deriving DecidableEq

/-- How many times one `performScraping` call returned its acquired
browser to the pool. -/
structure ScrapeTrace where
  releases : Nat
  destroys : Nat
  deriving DecidableEq

instance {ε α : Type} [DecidableEq ε] [DecidableEq α] : DecidableEq (Except ε α) :=
  fun a b =>
    match a, b with
    | .error e, .error f =>
      if h : e = f then isTrue (congrArg Except.error h)
      else isFalse (fun he => h (Except.error.inj he))
    | .error _, .ok _ => isFalse (fun he => Except.noConfusion he)
    | .ok _, .error _ => isFalse (fun he => Except.noConfusion he)
    | .ok x, .ok y =>
      if h : x = y then isTrue (congrArg Except.ok h)
      else isFalse (fun he => h (Except.ok.inj he))

/-- The outcomes of the external steps of one `performScraping` call:
whether `browserPool.acquire()` resolves, whether `browser.newPage()`
resolves, the combined outcome of the try-block steps (navigation, form
fill, submit, wait, extract, lines 119-155), the text extracted from
`#response-field` when those steps succeed, and whether the borrowed
instance is left in an unrecoverable state (e.g. a navigation timeout
followed by a failed cleanup).  The code never inspects `corrupted`; the
flag exists so that claims about corrupted instances can be stated. -/
structure ScrapeEnv where
  acquire : Except PoolError Unit
  newPage : Except String Unit
  steps : Except String Unit
  resultText : String
  corrupted : Bool
  deriving DecidableEq

/-- `performScraping` (src/app.js lines 115-162) as a function of the
outcomes of its external steps: the result or thrown error, together with
the number of `browserPool.release` / `browserPool.destroy` calls made.
The `finally` block (line 160) releases the browser, but it guards only
the `try` block, which starts after `browser.newPage()`: an acquire or
newPage rejection performs no release. -/
def performScraping (env : ScrapeEnv) : Except ScrapeError String × ScrapeTrace :=
  match env.acquire with
  | .error e => (.error (.fromPool e), ⟨0, 0⟩)
  | .ok _ =>
    match env.newPage with
    | .error m => (.error (.fromNewPage m), ⟨0, 0⟩)
    | .ok _ =>
      match env.steps with
      | .ok _ => (.ok env.resultText, ⟨1, 0⟩)
      | .error _ => (.error .failedToFetch, ⟨1, 0⟩)

/-- The resource types suppressed by the request-interception handler
(src/app.js line 127). -/
def suppressedResourceTypes : List String :=
  ["image", "stylesheet", "font"]

/-- What the interception handler decides to do with one request. -/
inductive FilterAction : Type where
  | abortRequest
  | continueRequest
  deriving DecidableEq

/-- The branch taken by the `page.on('request', ...)` handler
(src/app.js lines 126-132) for a request of the given resource type. -/
def interceptAction (resourceType : String) : FilterAction :=
  if resourceType ∈ suppressedResourceTypes then .abortRequest
  else .continueRequest

/-- The empty catch handler attached to `request.continue()` at line 130:
whatever the continue promise does, no error escapes the handler. -/
def catchAll (r : Except String Unit) : Except String Unit :=
  match r with
  | .ok _ => .ok ()
  | .error _ => .ok ()

/-- The full interception handler (src/app.js lines 126-132): the action
taken for a request of the given resource type, and the error (if any)
that escapes the handler, given the outcomes of the underlying
`abort()` / `continue()` calls.  `request.abort()` at line 128 has no
catch attached, so its rejection escapes the handler unhandled;
`request.continue()` at line 130 carries the empty catch, so its
rejection is swallowed.  Each branch attempts only its own call. -/
def onRequest (resourceType : String) (abortResult continueResult : Except String Unit) :
    FilterAction × Except String Unit :=
  match interceptAction resourceType with
  | .abortRequest => (.abortRequest, abortResult)
  | .continueRequest => (.continueRequest, catchAll continueResult)

/-- The JSON body the route handler answers with (status code, `success`
flag, and the `result` / `code` fields when present). -/
structure HttpResponse where
  status : Nat
  success : Bool
  result : Option String
  code : Option String
  deriving DecidableEq

/-- The outcome of one POST /api/firearms/search request: the response,
the cache state afterwards, and whether `performScraping` (and hence
`browserPool.acquire`) was invoked. -/
structure HandlerResult where
  response : HttpResponse
  cache : CacheState
  acquireInvoked : Bool
  deriving DecidableEq

/-- The scrape-and-respond tail of the route handler
(src/app.js lines 414-431): run `performScraping`; on success cache the
result under the body's key and answer 200; on any thrown error answer
the single 500 INTERNAL_SERVER_ERROR response, leaving the cache
unchanged.  The catch block does not inspect the error. -/
def scrapeAndRespond (b : Body) (c : CacheState) (now : Nat) (env : ScrapeEnv) :
    HandlerResult :=
  match (performScraping env).1 with
  | .ok r => ⟨⟨200, true, some r, none⟩, cacheSet c (cacheKey b) r now, true⟩
  | .error _ => ⟨⟨500, false, none, some "INTERNAL_SERVER_ERROR"⟩, c, true⟩

/-- The POST /api/firearms/search handler (src/app.js lines 390-432):
reject invalid bodies with 400; otherwise look up `cacheKey b`; the line
407 test `if (cachedResult)` answers from the cache only when the cached
value is truthy (present and non-empty), and otherwise falls through to
the scrape path. -/
def searchHandler (b : Body) (c : CacheState) (now : Nat) (env : ScrapeEnv) :
    HandlerResult :=
  if validateFirearmSearch b = false then
    ⟨⟨400, false, none, some "VALIDATION_ERROR"⟩, c, false⟩
  else
    match cacheGet c (cacheKey b) now with
    | some v =>
      if v ≠ "" then ⟨⟨200, true, some v, none⟩, c, false⟩
      else scrapeAndRespond b c now env
    | none => scrapeAndRespond b c now env

/-- The comma-separated members of a nonempty serialized object, split off
from `jsonEntries` for reasoning: the separator that follows the first
entry depends on whether further entries exist. -/
def jsonTail (rest : Body) : List Char :=
  match rest with
  | [] => []
  | _ :: _ => commaChar :: jsonEntries rest

/-- Scenario A's request body, fields in canonical order. -/
def bodyRefId : Body := [("fref", "REF123456"), ("frid", "8001015009087")]

/-- Scenario A's request body with the same two fields in the other order. -/
def bodyRefIdReversed : Body := [("frid", "8001015009087"), ("fref", "REF123456")]

/-- Scenario A's request body plus a stray field with a name outside the
six form fields. -/
def bodyRefIdStray : Body :=
  [("fref", "REF123456"), ("frid", "8001015009087"), ("note", "extra")]

/-- Scenario A's request body plus a stray `fserial` field whose value
fails the serial-number format check. -/
def bodyRefIdBadStray : Body :=
  [("fref", "REF123456"), ("frid", "8001015009087"), ("fserial", "!!")]

/-- A run where `browserPool.acquire()` resolves and `browser.newPage()`
rejects. -/
def envNewPageFails : ScrapeEnv :=
  ⟨.ok (), .error "Protocol error: Connection closed", .ok (), "", false⟩

/-- A run where navigation times out and the instance is left in an
unrecoverable state. -/
def envCorruptedTimeout : ScrapeEnv :=
  ⟨.ok (), .ok (), .error "Navigation timeout of 30000 ms exceeded", "", true⟩

/-- A run where the pool acquire itself rejects. -/
def envPoolExhausted : ScrapeEnv :=
  ⟨.error .poolExhausted, .ok (), .ok (), "", false⟩

/-- A run where a try-block step (waiting for the result selector) fails. -/
def envSelectorFails : ScrapeEnv :=
  ⟨.ok (), .ok (), .error "waiting for selector #response-field failed", "", false⟩

/-- A fully successful run. -/
def envScrapeOk : ScrapeEnv :=
  ⟨.ok (), .ok (), .ok (), "Firearm status: Valid license", false⟩

/-- C4 counterexample: the claim says an acquire made while the pool is at
its configured maximum fails with PoolExhausted after a bounded wait.
With the options the code passes (no `acquireTimeoutMillis`), an acquire
during sustained load (no instance ever freed) stays pending forever
instead of failing with PoolExhausted. -/
theorem C4_counterexample :
    acquireAtCapacity browserPoolOptions none = AcquireOutcome.pending := by
  rfl

/-- C4 amended: with the code's pool configuration (min 2, max 10, no
acquire-timeout option), an acquire at maximum capacity succeeds as soon
as an instance is freed and otherwise stays pending indefinitely; it
never fails with PoolExhausted. -/
theorem C4_amended :
    (∀ t : Nat, acquireAtCapacity browserPoolOptions (some t) = .acquired t) ∧
    acquireAtCapacity browserPoolOptions none = .pending := by
  exact ⟨fun t => rfl, rfl⟩

/-- C1: evaluation of `performScraping` on the failing input: the acquire
succeeds, `browser.newPage()` rejects, and the call completes with zero
`release` and zero `destroy` — the acquired browser leaks, because
`newPage` is called before the `try` whose `finally` does the release. -/
theorem C1_newpage_leak :
    envNewPageFails.acquire = .ok () ∧
    (performScraping envNewPageFails).1 =
      .error (.fromNewPage "Protocol error: Connection closed") ∧
    (performScraping envNewPageFails).2.releases = 0 ∧
    (performScraping envNewPageFails).2.destroys = 0 := by
  exact ⟨rfl, rfl, rfl, rfl⟩

/-- C2 counterexample: a scrape whose navigation times out and whose
borrowed instance is left unrecoverable still releases the instance and
never destroys it — the cleanup path of `performScraping` is
unconditionally `browserPool.release(browser)`. -/
theorem C2_counterexample :
    envCorruptedTimeout.corrupted = true ∧
    (performScraping envCorruptedTimeout).2.destroys = 0 ∧
    (performScraping envCorruptedTimeout).2.releases = 1 := by
  exact ⟨rfl, rfl, rfl⟩

/-- C2 amended: the orchestrator never calls `destroy`; every run in which
acquire and newPage succeed releases the instance exactly once, whether
or not the instance is corrupted. -/
theorem C2_amended (env : ScrapeEnv) :
    (performScraping env).2.destroys = 0 ∧
    (env.acquire = .ok () ∧ env.newPage = .ok () →
      (performScraping env).2.releases = 1) := by
  obtain ⟨a, n, s, t, co⟩ := env
  cases a <;> cases n <;> cases s <;> simp [performScraping]

/-- C2 witness: the amended statement at a successful concrete run. -/
theorem C2_amended_witness :
    (performScraping envScrapeOk).2.destroys = 0 ∧
    (performScraping envScrapeOk).2.releases = 1 := by
  exact ⟨(C2_amended envScrapeOk).1, (C2_amended envScrapeOk).2 ⟨rfl, rfl⟩⟩

/-- C3 counterexample: a pool-acquire failure and a scrape-step failure
produce identical HTTP outcomes — the route's catch block maps every
thrown error to the same 500 INTERNAL_SERVER_ERROR response, so the
caller cannot distinguish them. -/
theorem C3_counterexample :
    (performScraping envPoolExhausted).1 = .error (.fromPool .poolExhausted) ∧
    (performScraping envSelectorFails).1 = .error .failedToFetch ∧
    searchHandler bodyRefId [] 0 envPoolExhausted =
      searchHandler bodyRefId [] 0 envSelectorFails := by
  exact ⟨rfl, rfl, by decide⟩

/-- C3 amended: `performScraping` terminates with the result, a
pool-acquire error propagated unchanged, a `newPage` error propagated
unchanged, or the single wrapped error for try-block failures; and the
HTTP handler answers every failed scrape with the same response, so the
error classes are not distinguishable at the boundary. -/
theorem C3_error_taxonomy :
    (∀ env : ScrapeEnv,
      (∃ s, (performScraping env).1 = .ok s) ∨
      (∃ e, env.acquire = .error e ∧
        (performScraping env).1 = .error (.fromPool e)) ∨
      (∃ m, env.newPage = .error m ∧
        (performScraping env).1 = .error (.fromNewPage m)) ∨
      (performScraping env).1 = .error .failedToFetch) ∧
    (∀ (b : Body) (c : CacheState) (now : Nat) (envP envS : ScrapeEnv)
        (eP eS : ScrapeError),
      validateFirearmSearch b = true →
      cacheGet c (cacheKey b) now = none →
      (performScraping envP).1 = .error eP →
      (performScraping envS).1 = .error eS →
      searchHandler b c now envP = searchHandler b c now envS) := by
  constructor
  · intro env
    obtain ⟨a, n, s, t, co⟩ := env
    cases a <;> cases n <;> cases s <;> simp [performScraping]
  · intro b c now envP envS eP eS hb hmiss hp hs
    simp [searchHandler, hb, hmiss, scrapeAndRespond, hp, hs]

/-- C3 witness: the two failing runs of the counterexample satisfy the
hypotheses of the amended statement. -/
theorem C3_taxonomy_witness :
    validateFirearmSearch bodyRefId = true ∧
    cacheGet [] (cacheKey bodyRefId) 0 = none ∧
    searchHandler bodyRefId [] 0 envPoolExhausted =
      searchHandler bodyRefId [] 0 envSelectorFails := by
  refine ⟨by decide, rfl, ?_⟩
  exact C3_error_taxonomy.2 bodyRefId [] 0 envPoolExhausted envSelectorFails
    (.fromPool .poolExhausted) .failedToFetch (by decide) rfl rfl rfl

/-- C8: node-cache round trip and expiry with the configured
`stdTTL: 3600`: a `set` followed by a `get` at the same instant returns
the stored value, and once more than one hour has passed since the store
the `get` reports a miss. -/
theorem C8_cache_roundtrip_ttl (c : CacheState) (k v : String) (now later : Nat) :
    cacheGet (cacheSet c k v now) k now = some v ∧
    (now + cacheTTLMillis < later → cacheGet (cacheSet c k v now) k later = none) := by
  constructor
  · simp [cacheSet, cacheGet]
  · intro h
    simp [cacheSet, cacheGet]
    omega

/-- C8 witness: the round trip and the expiry at concrete instants. -/
theorem C8_cache_witness :
    cacheGet (cacheSet [] "k" "v" 0) "k" 0 = some "v" ∧
    cacheGet (cacheSet [] "k" "v" 0) "k" 3600001 = none := by
  exact ⟨(C8_cache_roundtrip_ttl [] "k" "v" 0 3600001).1,
    (C8_cache_roundtrip_ttl [] "k" "v" 0 3600001).2 (by decide)⟩

/-- C9 counterexample: an image request whose `abort()` call rejects.
The rejection escapes the handler — `request.abort()` at line 128 has no
catch — so the filter is not fail-open on the abort branch: this
filtering error surfaces as an unhandled promise rejection, which can
terminate the scrape's process. -/
theorem C9_counterexample :
    ("image" ∈ suppressedResourceTypes) ∧
    (onRequest "image" (.error "Request is already handled") (.ok ())).2 =
      .error "Request is already handled" := by
  exact ⟨by decide, rfl⟩

/-- C9 amended: the handler aborts exactly the image, stylesheet and font
requests and continues every other request; a filtering error is
swallowed only on the continue path, whose `continue()` carries the empty
catch — on the abort path the outcome of `abort()` escapes the handler
unchanged. -/
theorem C9_request_filter (rt : String) (abortRes contRes : Except String Unit) :
    (rt ∈ suppressedResourceTypes →
      (onRequest rt abortRes contRes).1 = .abortRequest ∧
      (onRequest rt abortRes contRes).2 = abortRes) ∧
    (rt ∉ suppressedResourceTypes →
      (onRequest rt abortRes contRes).1 = .continueRequest ∧
      (onRequest rt abortRes contRes).2 = .ok ()) := by
  constructor
  · intro hmem
    simp [onRequest, interceptAction, hmem]
  · intro hmem
    cases contRes <;> simp [onRequest, interceptAction, hmem, catchAll]

/-- C9 witness: an image request whose `abort()` rejects lets the error
escape; a script request whose `continue()` rejects escapes no error. -/
theorem C9_filter_witness :
    (onRequest "image" (.error "Request is already handled") (.ok ())).1
      = .abortRequest ∧
    (onRequest "image" (.error "Request is already handled") (.ok ())).2
      = .error "Request is already handled" ∧
    (onRequest "script" (.ok ()) (.error "Request is already handled")).1
      = .continueRequest ∧
    (onRequest "script" (.ok ()) (.error "Request is already handled")).2
      = .ok () := by
  have h1 := (C9_request_filter "image" (.error "Request is already handled")
    (.ok ())).1 (by decide)
  have h2 := (C9_request_filter "script" (.ok ())
    (.error "Request is already handled")).2 (by decide)
  exact ⟨h1.1, h1.2, h2.1, h2.2⟩

/-- C6 counterexample: a previous successful call cached the empty string;
the repeated identical query within the TTL does not return the cached
value — the line 407 truthiness test `if (cachedResult)` treats the
cached empty string as a miss and the handler scrapes again, invoking
`browserPool.acquire`. -/
theorem C6_counterexample :
    cacheGet (cacheSet [] (cacheKey bodyRefId) "" 0) (cacheKey bodyRefId) 0 = some "" ∧
    (searchHandler bodyRefId (cacheSet [] (cacheKey bodyRefId) "" 0) 0
      envScrapeOk).acquireInvoked = true := by
  decide

/-- C6 amended: a repeated identical query within the TTL returns the
cached value without invoking the pool whenever the cached value is
non-empty; an empty cached string is falsy and triggers a fresh scrape. -/
theorem C6_amended (b : Body) (c : CacheState) (now : Nat) (env : ScrapeEnv)
    (v : String) (hb : validateFirearmSearch b = true)
    (hhit : cacheGet c (cacheKey b) now = some v) (hv : v ≠ "") :
    searchHandler b c now env = ⟨⟨200, true, some v, none⟩, c, false⟩ := by
  simp [searchHandler, hb, hhit, hv]

/-- C6 witness: the amended statement on a concrete cached non-empty
result; the scrape environment is irrelevant on the hit path. -/
theorem C6_amended_witness :
    validateFirearmSearch bodyRefId = true ∧
    searchHandler bodyRefId
        (cacheSet [] (cacheKey bodyRefId) "Firearm status: Valid license" 0) 0
        envPoolExhausted =
      ⟨⟨200, true, some "Firearm status: Valid license", none⟩,
        cacheSet [] (cacheKey bodyRefId) "Firearm status: Valid license" 0, false⟩ := by
  refine ⟨by decide, ?_⟩
  exact C6_amended bodyRefId _ 0 envPoolExhausted _ (by decide) (by decide) (by decide)

/-- For every body the validator accepts, the form-fill chain of
`performScraping` types exactly the two fields of the body's unique
complete pair, with the values of that pair, as given by the spec's fixed
variant→field table. -/
theorem fillFields_spec_table (b : Body) (h : validateFirearmSearch b = true) :
    Option.map specFieldTable (queryOfBody b) = some (fillFields b) := by
  have hc : pairCount b = 1 := by
    unfold validateFirearmSearch at h
    simp only [Bool.and_eq_true, beq_iff_eq] at h
    exact h.1.1.1.1.1.1
  unfold pairCount at hc
  unfold queryOfBody fillFields
  cases h1 : pairComplete b "fref" "frid" <;>
    cases h2 : pairComplete b "fserial" "fsref" <;>
      cases h3 : pairComplete b "fid" "fiserial" <;>
        simp_all [specFieldTable]

/-- C7: for every validated body, the orchestrator populates exactly the
two form fields named by the body's variant with the corresponding
values, agreeing with the spec's fixed table, and no other field. -/
theorem C7_fill_exactly_variant_fields (b : Body)
    (h : validateFirearmSearch b = true) :
    Option.map specFieldTable (queryOfBody b) = some (fillFields b) :=
  fillFields_spec_table b h

/-- C7 witness: Scenario A's query fills `#fref`/`#frid` with exactly its
two values. -/
theorem C7_fill_witness :
    validateFirearmSearch bodyRefId = true ∧
    queryOfBody bodyRefId = some (.byReferenceAndId "REF123456" "8001015009087") ∧
    fillFields bodyRefId = [("#fref", "REF123456"), ("#frid", "8001015009087")] ∧
    Option.map specFieldTable (queryOfBody bodyRefId) = some (fillFields bodyRefId) := by
  refine ⟨by decide, by decide, by decide, ?_⟩
  exact C7_fill_exactly_variant_fields bodyRefId (by decide)

/-- A plain character is escaped to itself. -/
theorem jsonEscapeChar_plain (c : Char) (h : plainChar c = true) :
    jsonEscapeChar c = [c] := by
  unfold plainChar at h
  simp only [Bool.and_eq_true, bne_iff_ne, ne_eq, decide_eq_true_eq] at h
  obtain ⟨⟨h1, h2⟩, h3⟩ := h
  unfold jsonEscapeChar
  rw [if_neg h1, if_neg h2,
    if_neg (fun he => absurd h3 (by rw [he]; decide)),
    if_neg (fun he => absurd h3 (by rw [he]; decide)),
    if_neg (fun he => absurd h3 (by rw [he]; decide)),
    if_neg (fun he => absurd h3 (by rw [he]; decide)),
    if_neg (fun he => absurd h3 (by rw [he]; decide)),
    if_neg (by omega)]

/-- A list of plain characters is escaped to itself. -/
theorem jsonEscapeList_plain (l : List Char) (h : l.all plainChar = true) :
    jsonEscapeList l = l := by
  induction l with
  | nil => rfl
  | cons c cs ih =>
    simp only [List.all_cons, Bool.and_eq_true] at h
    calc jsonEscapeList (c :: cs) = jsonEscapeChar c ++ jsonEscapeList cs := rfl
      _ = [c] ++ cs := by rw [jsonEscapeChar_plain c h.1, ih h.2]
      _ = c :: cs := rfl

/-- Plain character lists contain no quote character. -/
theorem plain_no_quote (l : List Char) (h : l.all plainChar = true) :
    quoteChar ∉ l := by
  intro hmem
  have hq := List.all_eq_true.mp h quoteChar hmem
  unfold plainChar at hq
  simp at hq

/-- Splitting at the first quote: two quote-free lists followed by a quote
and arbitrary tails are equal only componentwise. -/
theorem quote_split (a : List Char) :
    quoteChar ∉ a → ∀ (b : List Char), quoteChar ∉ b →
      ∀ (s t : List Char), a ++ quoteChar :: s = b ++ quoteChar :: t →
        a = b ∧ s = t := by
  induction a with
  | nil =>
    intro _ b hb s t h
    cases b with
    | nil =>
      simp only [List.nil_append, List.cons.injEq] at h
      exact ⟨rfl, h.2⟩
    | cons y ys =>
      simp only [List.nil_append, List.cons_append, List.cons.injEq] at h
      obtain ⟨h1, _⟩ := h
      subst h1
      exact absurd (List.mem_cons_self _ _) hb
  | cons x xs ih =>
    intro ha b hb s t h
    simp only [List.mem_cons, not_or] at ha
    cases b with
    | nil =>
      simp only [List.cons_append, List.nil_append, List.cons.injEq] at h
      exact absurd h.1.symm ha.1
    | cons y ys =>
      simp only [List.mem_cons, not_or] at hb
      simp only [List.cons_append, List.cons.injEq] at h
      obtain ⟨rfl, h2⟩ := h
      obtain ⟨hxs, hs⟩ := ih ha.2 ys hb.2 s t h2
      exact ⟨by rw [hxs], hs⟩

/-- `jsonEntries` of a cons, in the uniform `entry ++ tail` shape. -/
theorem jsonEntries_cons (kv : String × String) (rest : Body) :
    jsonEntries (kv :: rest) = jsonEntry kv ++ jsonTail rest := by
  cases rest with
  | nil => simp [jsonEntries, jsonTail]
  | cons kv2 r => rfl

/-- Peeling one serialized `"key":"value"` member off equal serializations
of plain entries: the keys, the values and the remainders agree. -/
theorem jsonEntry_peel (k1 v1 k2 v2 : String) (t1 t2 : List Char)
    (hk1 : plainString k1 = true) (hv1 : plainString v1 = true)
    (hk2 : plainString k2 = true) (hv2 : plainString v2 = true)
    (h : jsonEntry (k1, v1) ++ t1 = jsonEntry (k2, v2) ++ t2) :
    k1 = k2 ∧ v1 = v2 ∧ t1 = t2 := by
  unfold jsonEntry at h
  rw [jsonEscapeList_plain _ hk1, jsonEscapeList_plain _ hv1,
    jsonEscapeList_plain _ hk2, jsonEscapeList_plain _ hv2] at h
  simp only [List.cons_append, List.append_assoc, List.singleton_append,
    List.cons.injEq, true_and] at h
  obtain ⟨hkd, hrest⟩ :=
    quote_split k1.data (plain_no_quote _ hk1) k2.data (plain_no_quote _ hk2) _ _ h
  simp only [List.cons.injEq, true_and] at hrest
  obtain ⟨hvd, ht⟩ :=
    quote_split v1.data (plain_no_quote _ hv1) v2.data (plain_no_quote _ hv2) _ _ hrest
  exact ⟨String.ext hkd, String.ext hvd, ht⟩

/-- Serialization of the members of plain bodies is injective. -/
theorem jsonEntries_inj :
    ∀ (b1 : Body), plainBody b1 = true → ∀ (b2 : Body), plainBody b2 = true →
      jsonEntries b1 = jsonEntries b2 → b1 = b2 := by
  intro b1
  induction b1 with
  | nil =>
    intro _ b2 _ h
    cases b2 with
    | nil => rfl
    | cons kv r =>
      rw [show jsonEntries [] = [] from rfl, jsonEntries_cons] at h
      exact absurd h (by simp [jsonEntry])
  | cons kv r ih =>
    intro h1 b2 h2 h
    obtain ⟨k, v⟩ := kv
    cases b2 with
    | nil =>
      rw [show jsonEntries [] = [] from rfl, jsonEntries_cons] at h
      exact absurd h.symm (by simp [jsonEntry])
    | cons kv2 r2 =>
      obtain ⟨k2, v2⟩ := kv2
      rw [jsonEntries_cons, jsonEntries_cons] at h
      simp only [plainBody, List.all_cons, Bool.and_eq_true] at h1 h2
      obtain ⟨⟨hk1, hv1⟩, hr1⟩ := h1
      obtain ⟨⟨hk2, hv2⟩, hr2⟩ := h2
      obtain ⟨hkeq, hveq, hteq⟩ := jsonEntry_peel k v k2 v2 _ _ hk1 hv1 hk2 hv2 h
      subst hkeq
      subst hveq
      cases r with
      | nil =>
        cases r2 with
        | nil => rfl
        | cons a2 b2 => exact absurd hteq (by simp [jsonTail])
      | cons a b =>
        cases r2 with
        | nil => exact absurd hteq (by simp [jsonTail])
        | cons a2 b2 =>
          simp only [jsonTail, List.cons.injEq, true_and] at hteq
          rw [ih hr1 (a2 :: b2) hr2 hteq]

/-- The cache key is injective on bodies whose keys and values are plain
strings: distinct ordered field lists always serialize differently. -/
theorem cacheKey_inj (b1 b2 : Body) (h1 : plainBody b1 = true)
    (h2 : plainBody b2 = true) (h : cacheKey b1 = cacheKey b2) : b1 = b2 := by
  unfold cacheKey at h
  have hdata : lbraceChar :: (jsonEntries b1 ++ [rbraceChar]) =
      lbraceChar :: (jsonEntries b2 ++ [rbraceChar]) := congrArg String.data h
  simp only [List.cons.injEq, true_and] at hdata
  exact jsonEntries_inj b1 h1 b2 h2 (List.append_cancel_right hdata)

/-- The canonical body of a Query determines the Query. -/
theorem canonicalBody_inj (q1 q2 : Query) (h : canonicalBody q1 = canonicalBody q2) :
    q1 = q2 := by
  cases q1 <;> cases q2 <;>
    simp only [canonicalBody, List.cons.injEq, Prod.mk.injEq] at h <;>
    first
      | exact absurd h.1.1 (by decide)
      | (simp only [Query.byReferenceAndId.injEq, Query.bySerialAndReference.injEq,
           Query.byIdAndSerial.injEq]
         exact ⟨h.1.2, h.2.1.2⟩)

/-- The canonical body of a plain Query is a plain body. -/
theorem plainBody_canonical (q : Query) (h : plainQuery q = true) :
    plainBody (canonicalBody q) = true := by
  cases q <;>
    simp_all [plainQuery, plainBody, canonicalBody] <;>
    decide

/-- C5 counterexample: two structurally equal Queries presented with their
two fields in different input order produce different CacheKeys —
`JSON.stringify(req.body)` depends on the field order of the body. -/
theorem C5_counterexample :
    queryOfBody bodyRefId = some (.byReferenceAndId "REF123456" "8001015009087") ∧
    queryOfBody bodyRefIdReversed =
      some (.byReferenceAndId "REF123456" "8001015009087") ∧
    cacheKey bodyRefId ≠ cacheKey bodyRefIdReversed := by
  decide

/-- C5 amended: on bodies in the canonical field order of their variant,
the cache key separates Queries exactly — equal Queries give equal keys
and different Queries (different variant or different field values) give
different keys; but the key is not order-independent, so two structurally
equal Queries presented with different field order can produce different
keys. -/
theorem C5_amended (q1 q2 : Query) (h1 : plainQuery q1 = true)
    (h2 : plainQuery q2 = true) :
    cacheKey (canonicalBody q1) = cacheKey (canonicalBody q2) ↔ q1 = q2 := by
  constructor
  · intro h
    exact canonicalBody_inj q1 q2
      (cacheKey_inj _ _ (plainBody_canonical q1 h1) (plainBody_canonical q2 h2) h)
  · intro h
    rw [h]

/-- C5 witness: the amended statement separating Scenario A's query from a
different-variant query. -/
theorem C5_amended_witness :
    plainQuery (Query.byReferenceAndId "REF123456" "8001015009087") = true ∧
    (cacheKey (canonicalBody (Query.byReferenceAndId "REF123456" "8001015009087")) =
        cacheKey (canonicalBody (Query.bySerialAndReference "SN789012" "REF456789")) ↔
      Query.byReferenceAndId "REF123456" "8001015009087" =
        Query.bySerialAndReference "SN789012" "REF456789") := by
  refine ⟨by decide, ?_⟩
  exact C5_amended _ _ (by decide) (by decide)

/-- C10 counterexample: a body with exactly one complete pair plus a stray
field outside that pair is rejected by the validator when the stray field
is one of the six form-field names with a value failing its format check
(`fserial: "!!"`), contradicting the claim that any such body is
accepted. -/
theorem C10_counterexample :
    pairCount bodyRefIdBadStray = 1 ∧
    validateFirearmSearch bodyRefIdBadStray = false := by
  decide

/-- C10 amended: for two accepted bodies that denote the same Query but
differ (e.g. different stray fields), the scrape performed is the same
while the cache keys differ, so the second body misses the cache entry
stored under the first body's key and performs its own scrape. -/
theorem C10_amended (b1 b2 : Body) (hv1 : validateFirearmSearch b1 = true)
    (hv2 : validateFirearmSearch b2 = true)
    (hq : queryOfBody b1 = queryOfBody b2)
    (hp1 : plainBody b1 = true) (hp2 : plainBody b2 = true) (hne : b1 ≠ b2) :
    fillFields b1 = fillFields b2 ∧ cacheKey b1 ≠ cacheKey b2 ∧
    ∀ (v : String) (now : Nat) (env : ScrapeEnv),
      (searchHandler b2 (cacheSet [] (cacheKey b1) v now) now env).acquireInvoked
        = true := by
  have hkey : cacheKey b1 ≠ cacheKey b2 :=
    fun h => hne (cacheKey_inj b1 b2 hp1 hp2 h)
  refine ⟨?_, hkey, ?_⟩
  · have t1 := fillFields_spec_table b1 hv1
    have t2 := fillFields_spec_table b2 hv2
    rw [hq] at t1
    rw [t2] at t1
    exact (Option.some.inj t1).symm
  · intro v now env
    have hget : cacheGet (cacheSet [] (cacheKey b1) v now) (cacheKey b2) now
        = none := by
      simp [cacheSet, cacheGet, hkey]
    simp only [searchHandler, hv2, Bool.true_eq_false, if_false, hget]
    cases hres : (performScraping env).1 <;> simp [scrapeAndRespond, hres]

/-- C10 witness: Scenario A's body with and without a harmless stray field
named outside the six form fields. -/
theorem C10_amended_witness :
    validateFirearmSearch bodyRefIdStray = true ∧
    queryOfBody bodyRefId = queryOfBody bodyRefIdStray ∧
    fillFields bodyRefId = fillFields bodyRefIdStray ∧
    cacheKey bodyRefId ≠ cacheKey bodyRefIdStray ∧
    (searchHandler bodyRefIdStray
        (cacheSet [] (cacheKey bodyRefId) "Firearm status: Valid license" 0) 0
        envScrapeOk).acquireInvoked = true := by
  have h := C10_amended bodyRefId bodyRefIdStray (by decide) (by decide)
    (by decide) (by decide) (by decide) (by decide)
  exact ⟨by decide, by decide, h.1, h.2.1,
    h.2.2 "Firearm status: Valid license" 0 envScrapeOk⟩
